import Mathlib

/-!
Shallow embedding of `src/mcp_roblox_demo/server.py` (Roblox Open Cloud MCP
demo server): the request executor `make_roblox_request`, the operation poller
`poll_for_results`, and the tool-level workflow `update_script`.

Modelling conventions:
* A parsed JSON value is `Json`; a response envelope (the parsed JSON body,
  annotated `dict[str, Any]` in the source) is an association list
  `Envelope := List (String × Json)`; Python dict keys are unique, and lookups
  use the first occurrence.
* Python truthiness is `truthy` (None/False/0/""/empty containers are falsy).
* The remote side of one HTTP call is a `RemoteOutcome`: either a transport
  fault (any exception from the client: timeout, connection error, ...) or a
  response carrying a status code and a parsed JSON body.
* Python exceptions are `PyExc`; a function that may raise returns
  `Except PyExc _`.  `make_roblox_request` wraps its whole body in
  `try/except Exception`, which the embedding reproduces faithfully: the
  internally raised `ValueError` for an unsupported method is caught by the
  generic handler.
* Each embedded function also counts the network calls it performs (and, for
  the poller, the `asyncio.sleep(delay)` suspensions), so that claims about
  "no network call" / "exactly N calls" / "zero delays" are statable.
-/

/-- A parsed JSON value. -/
inductive Json where
  | null : Json
  | bool (b : Bool) : Json
  | num (n : Int) : Json
  | str (s : String) : Json
  | arr (elems : List Json) : Json
  | obj (fields : List (String × Json)) : Json

/-- A response envelope: the parsed JSON body of an HTTP response, which the
source annotates as `dict[str, Any]`. -/
abbrev Envelope := List (String × Json)

/-- Python truthiness of a JSON value (`bool(x)`). -/
def truthy : Json → Bool
  | .null => false
  | .bool b => b
  | .num n => n != 0
  | .str s => s != ""
  | .arr elems => !elems.isEmpty
  | .obj fields => !fields.isEmpty

/-- Python truthiness of a `dict.get` result (`None` is falsy). -/
def optTruthy : Option Json → Bool
  | none => false
  | some j => truthy j

mutual

/-- Python `str()` / f-string rendering of a JSON value (for a string, the
bare characters; for other values, the `repr`-style rendering Python uses
inside container displays and for atoms). -/
def pyStr : Json → String
  | .str s => s
  | .null => "None"
  | .bool true => "True"
  | .bool false => "False"
  | .num n => toString n
  | .arr elems => "[" ++ pyStrElems elems ++ "]"
  | .obj fields => "\x7b" ++ pyStrFields fields ++ "\x7d"

/-- Python `repr()` of a JSON value (strings get quotes). -/
def pyRepr : Json → String
  | .str s => "\x27" ++ s ++ "\x27"
  | .null => "None"
  | .bool true => "True"
  | .bool false => "False"
  | .num n => toString n
  | .arr elems => "[" ++ pyStrElems elems ++ "]"
  | .obj fields => "\x7b" ++ pyStrFields fields ++ "\x7d"

/-- Comma-separated `repr`s of list elements. -/
def pyStrElems : List Json → String
  | [] => ""
  | [x] => pyRepr x
  | x :: rest => pyRepr x ++ ", " ++ pyStrElems rest

/-- Comma-separated `key: repr(value)` renderings of dict entries, with the
keys quoted as Python does. -/
def pyStrFields : List (String × Json) → String
  | [] => ""
  | [(k, v)] => "\x27" ++ k ++ "\x27: " ++ pyRepr v
  | (k, v) :: rest => "\x27" ++ k ++ "\x27: " ++ pyRepr v ++ ", " ++ pyStrFields rest

end

/-- A Python exception, as classified by the executor's `except` clauses. -/
inductive PyExc where
  | httpStatusError (status : Nat) : PyExc
  | valueError (msg : String) : PyExc
  | transportError : PyExc
deriving DecidableEq

/-- The remote side of a single HTTP call: either a transport-level fault
(raises out of the `httpx` client) or a response with a status code and a
parsed JSON body (the source always expects a JSON response body). -/
inductive RemoteOutcome where
  | fault : RemoteOutcome
  | resp (status : Nat) (body : Envelope) : RemoteOutcome

/-- Python `str.upper()` (`method.upper()` in the source).  All method
strings the source compares against are ASCII, where `Char.toUpper` agrees
with Python's Unicode uppercasing.  (Defined by a list map so that it
reduces definitionally, unlike `String.toUpper`.) -/
def pyUpper (s : String) : String := ⟨s.data.map Char.toUpper⟩

/-- The `httpx` send: a fault raises, otherwise we get the response. -/
def sendRequest : RemoteOutcome → Except PyExc (Nat × Envelope)
  | .fault => .error .transportError
  | .resp status body => .ok (status, body)

/-- `response.raise_for_status()`: raise `HTTPStatusError` unless 2xx. -/
def raiseForStatus (r : Nat × Envelope) : Except PyExc (Nat × Envelope) :=
  if 200 ≤ r.1 ∧ r.1 < 300 then .ok r else .error (.httpStatusError r.1)

/-- Send the request and run `response.raise_for_status()`, then take
`response.json()` (the parsed body). -/
def checkedBody (remote : RemoteOutcome) : Except PyExc Envelope :=
  match sendRequest remote with
  | .error e => .error e
  | .ok response =>
    match raiseForStatus response with
    | .error e => .error e
    | .ok response => .ok response.2

/-- The body of the `try` block of `make_roblox_request`: dispatch on
`method.upper()` (GET / PATCH / `raise ValueError`), then
`raise_for_status`, then `response.json()` (see `checkedBody`).  The second
component counts network calls performed (0 for the unsupported-method
branch, which raises before any I/O). -/
def requestAttempt (method : String) (remote : RemoteOutcome) :
    Except PyExc Envelope × Nat :=
  if pyUpper method = "GET" then
    (checkedBody remote, 1)
  else if pyUpper method = "PATCH" then
    (checkedBody remote, 1)
  else
    (.error (.valueError ("Unsupported HTTP method: " ++ method)), 0)

/-- `make_roblox_request(api_key, method, url, data)` against a given remote
behaviour.  The `try/except` structure is reproduced: an `HTTPStatusError`
is caught and mapped to `None`, and every other exception — including the
`ValueError` raised for an unsupported method — is caught by the generic
`except Exception` clause and also mapped to `None`.  Result: the Python
return value (`.ok` = a normal return, which is `some body` or `None`),
paired with the number of network calls performed. -/
def make_roblox_request (api_key : String) (method : String) (url : String)
    (data : Option Envelope) (remote : RemoteOutcome) :
    Except PyExc (Option Envelope) × Nat :=
  match requestAttempt method remote with
  | (.ok body, n) => (.ok (some body), n)
  | (.error (.httpStatusError _), n) => (.ok none, n)
  | (.error _, n) => (.ok none, n)

/-- Specification view of the executor's return value (proved equal to the
executor below): the parsed body on a supported method and 2xx status,
`none` otherwise. -/
def makeResult (method : String) (remote : RemoteOutcome) : Option Envelope :=
  if pyUpper method = "GET" ∨ pyUpper method = "PATCH" then
    match remote with
    | .fault => none
    | .resp status body => if 200 ≤ status ∧ status < 300 then some body else none
  else none

/-- Number of network calls one executor invocation performs. -/
def makeCalls (method : String) : Nat :=
  if pyUpper method = "GET" ∨ pyUpper method = "PATCH" then 1 else 0

theorem make_roblox_request_eq (api_key method url : String)
    (data : Option Envelope) (remote : RemoteOutcome) :
    make_roblox_request api_key method url data remote =
      (.ok (makeResult method remote), makeCalls method) := by
  unfold make_roblox_request requestAttempt checkedBody makeResult makeCalls
  by_cases hg : pyUpper method = "GET" <;>
    by_cases hp : pyUpper method = "PATCH" <;>
      cases remote with
      | fault => simp [hg, hp, sendRequest]
      | resp status body =>
        simp only [hg, hp, ite_true, ite_false, sendRequest, raiseForStatus,
          true_or, or_true]
        by_cases hs : 200 ≤ status ∧ status < 300 <;> simp [hs]

/-- The value a caller observes from the executor when it returns normally
(it always does — see `make_roblox_request_eq`). -/
def execValue (r : Except PyExc (Option Envelope) × Nat) : Option Envelope :=
  match r.1 with
  | .ok v => v
  | .error _ => none

theorem execValue_make (api_key method url : String) (data : Option Envelope)
    (remote : RemoteOutcome) :
    execValue (make_roblox_request api_key method url data remote) =
      makeResult method remote := by
  rw [make_roblox_request_eq]; rfl

/-- Constant `ROBLOX_API_BASE`. -/
def ROBLOX_API_BASE : String := "https://apis.roblox.com/cloud/v2"

/-- `url = f"{ROBLOX_API_BASE}/{operation_path}"` in `poll_for_results`. -/
def pollUrl (operation_path : String) : String :=
  ROBLOX_API_BASE ++ "/" ++ operation_path

/-- The poll-loop condition `response_data and response_data.get("done")`:
the envelope is present, truthy (a non-empty dict), and its `"done"` field is
present and truthy. -/
def respDone : Option Envelope → Bool
  | none => false
  | some response_data =>
    !response_data.isEmpty && optTruthy (response_data.lookup "done")

/-- What one run of the poller did: the Python return value, the number of
executor (network) calls made, and the number of `asyncio.sleep(delay)`
suspensions performed. -/
structure PollResult where
  result : Option Envelope
  calls : Nat
  delays : Nat

/-- The `for _ in range(retries)` loop of `poll_for_results`: at each
attempt, call the executor with GET; if the response is present and its
`"done"` field truthy, return it immediately; otherwise sleep `delay`
seconds and continue; after the last attempt return `None`.  `attempt`
indexes into the ambient sequence `polls` of remote behaviours, and the
second `Nat` argument is the number of attempts remaining. -/
def pollLoop (api_key url : String) (delay : Nat) (polls : Nat → RemoteOutcome) :
    Nat → Nat → Except PyExc PollResult
  | _, 0 => .ok ⟨none, 0, 0⟩
  | attempt, n + 1 =>
    match make_roblox_request api_key "GET" url none (polls attempt) with
    | (.error e, _) => .error e
    | (.ok response_data, calls) =>
      if respDone response_data then
        .ok ⟨response_data, calls, 0⟩
      else
        match pollLoop api_key url delay polls (attempt + 1) n with
        | .error e => .error e
        | .ok rest => .ok ⟨rest.result, calls + rest.calls, 1 + rest.delays⟩

/-- `poll_for_results(api_key, operation_path, retries=10, delay=5)` run
against the ambient sequence `polls` of remote behaviours (attempt `i` of the
loop observes `polls i`). -/
def poll_for_results (api_key operation_path : String) (retries delay : Nat)
    (polls : Nat → RemoteOutcome) : Except PyExc PollResult :=
  pollLoop api_key (pollUrl operation_path) delay polls 0 retries

/-- What one run of `update_script` did: the returned outcome string and the
number of executor (network) calls made. -/
structure UpdateResult where
  outcome : String
  networkCalls : Nat
deriving DecidableEq

/-- `update_script(universe_id, place_id, instance_id, script_content)`.
`roblox_api_key` is `os.getenv("ROBLOX_API_KEY")` (absent key = `none`);
`patchRemote` is the remote behaviour of the PATCH call and `polls` that of
the successive poll attempts. -/
def update_script (roblox_api_key : Option String)
    (universe_id place_id : Int) (instance_id script_content : String)
    (patchRemote : RemoteOutcome) (polls : Nat → RemoteOutcome) :
    Except PyExc UpdateResult :=
  match roblox_api_key with
  | none => .ok ⟨"Error: Roblox Open Cloud API Key is required.", 0⟩
  | some api_key =>
    if api_key = "" then
      .ok ⟨"Error: Roblox Open Cloud API Key is required.", 0⟩
    else
      let url := ROBLOX_API_BASE ++ "/universes/" ++ toString universe_id ++
        "/places/" ++ toString place_id ++ "/instances/" ++ instance_id
      let patch_data : Envelope :=
        [("engineInstance", .obj
          [("Details", .obj
            [("Script", .obj
              [("Source", .str script_content)])])])]
      match make_roblox_request api_key "PATCH" url (some patch_data) patchRemote with
      | (.error e, _) => .error e
      | (.ok patch_response, patchCalls) =>
        match patch_response with
        | none => .ok ⟨"Error: Failed to initiate script update.", patchCalls⟩
        | some patchEnv =>
          let operation_path := patchEnv.lookup "path"
          if !optTruthy operation_path then
            .ok ⟨"Error: Operation path not found in PATCH response.", patchCalls⟩
          else
            match poll_for_results api_key (pyStr (operation_path.getD .null)) 10 5 polls with
            | .error e => .error e
            | .ok pollRes =>
              let total := patchCalls + pollRes.calls
              match pollRes.result with
              | none => .ok ⟨"Error: Failed to poll for script update status.", total⟩
              | some poll_result =>
                if poll_result.isEmpty then
                  .ok ⟨"Error: Failed to poll for script update status.", total⟩
                else if optTruthy (poll_result.lookup "done") then
                  match poll_result.lookup "response" with
                  | some v =>
                    .ok ⟨"Script updated successfully! Final Response: " ++ pyStr v, total⟩
                  | none =>
                    match poll_result.lookup "error" with
                    | some v =>
                      .ok ⟨"Script update failed. Error: " ++ pyStr v, total⟩
                    | none =>
                      .ok ⟨"Script update operation completed, but no response data found.", total⟩
                else
                  .ok ⟨"Script update operation did not complete within the allowed time.", total⟩

theorem pyUpper_GET : pyUpper "GET" = "GET" := rfl

theorem pyUpper_PATCH : pyUpper "PATCH" = "PATCH" := rfl

theorem makeCalls_GET : makeCalls "GET" = 1 := rfl

theorem makeCalls_PATCH : makeCalls "PATCH" = 1 := rfl

/-- If no attempt in the window observes a present, done envelope, the loop
runs all `n` remaining attempts, sleeps after each one, and returns `None`. -/
theorem pollLoop_not_done (api_key url : String) (delay : Nat)
    (polls : Nat → RemoteOutcome) :
    ∀ (n attempt : Nat),
      (∀ j, attempt ≤ j → j < attempt + n →
        respDone (makeResult "GET" (polls j)) = false) →
      pollLoop api_key url delay polls attempt n = .ok ⟨none, n, n⟩ := by
  intro n
  induction n with
  | zero => intro attempt _; rfl
  | succ n ih =>
    intro attempt h
    have h0 : respDone (makeResult "GET" (polls attempt)) = false :=
      h attempt (Nat.le_refl _) (by omega)
    simp only [pollLoop, make_roblox_request_eq, makeCalls_GET, h0,
      Bool.false_eq_true, if_false]
    rw [ih (attempt + 1) (fun j hj1 hj2 => h j (by omega) (by omega))]
    simp [Nat.add_comm]

/-- If attempt `attempt + k` is the first one in the window to observe a
present, done envelope, the loop returns that envelope immediately, after
`k + 1` executor calls and `k` sleeps. -/
theorem pollLoop_first_done (api_key url : String) (delay : Nat)
    (polls : Nat → RemoteOutcome) :
    ∀ (n attempt k : Nat), k < n →
      (∀ j, j < k → respDone (makeResult "GET" (polls (attempt + j))) = false) →
      respDone (makeResult "GET" (polls (attempt + k))) = true →
      pollLoop api_key url delay polls attempt n =
        .ok ⟨makeResult "GET" (polls (attempt + k)), k + 1, k⟩ := by
  intro n
  induction n with
  | zero => intro attempt k hk _ _; exact absurd hk (Nat.not_lt_zero k)
  | succ n ih =>
    intro attempt k hk hprev hdone
    cases k with
    | zero =>
      simp only [Nat.add_zero] at hdone
      simp only [pollLoop, make_roblox_request_eq, makeCalls_GET, hdone, if_true]
      simp
    | succ k =>
      have h0 : respDone (makeResult "GET" (polls attempt)) = false := by
        have h1 := hprev 0 (Nat.succ_pos k)
        simpa using h1
      simp only [pollLoop, make_roblox_request_eq, makeCalls_GET, h0,
        Bool.false_eq_true, if_false]
      have harg : ∀ j, attempt + 1 + j = attempt + (j + 1) := by omega
      rw [ih (attempt + 1) k (by omega)
        (fun j hj => by rw [harg j]; exact hprev (j + 1) (by omega))
        (by rw [harg k]; exact hdone)]
      simp only [harg k]
      simp [Nat.add_comm]

/-- Any present envelope the loop returns satisfies the loop condition:
it is non-empty and its `"done"` field is truthy. -/
theorem pollLoop_result_done (api_key url : String) (delay : Nat)
    (polls : Nat → RemoteOutcome) :
    ∀ (n attempt : Nat) (r : PollResult) (fs : Envelope),
      pollLoop api_key url delay polls attempt n = .ok r →
      r.result = some fs →
      respDone (some fs) = true := by
  intro n
  induction n with
  | zero =>
    intro attempt r fs h hr
    simp only [pollLoop] at h
    cases h
    simp at hr
  | succ n ih =>
    intro attempt r fs h hr
    simp only [pollLoop, make_roblox_request_eq] at h
    by_cases hd : respDone (makeResult "GET" (polls attempt)) = true
    · rw [if_pos hd] at h
      cases h
      simp only at hr
      rw [hr] at hd
      exact hd
    · rw [if_neg hd] at h
      rcases hrec : pollLoop api_key url delay polls (attempt + 1) n with e | rest
      · rw [hrec] at h; cases h
      · rw [hrec] at h
        cases h
        simp only at hr
        exact ih (attempt + 1) rest fs hrec hr

/-- `poll_for_results` when no attempt observes a present, done envelope:
exactly `retries` executor calls, `retries` sleeps, and `None`. -/
theorem poll_for_results_not_done (api_key operation_path : String)
    (retries delay : Nat) (polls : Nat → RemoteOutcome)
    (h : ∀ j, j < retries → respDone (makeResult "GET" (polls j)) = false) :
    poll_for_results api_key operation_path retries delay polls =
      .ok ⟨none, retries, retries⟩ := by
  unfold poll_for_results
  exact pollLoop_not_done api_key (pollUrl operation_path) delay polls retries 0
    (fun j _ hj2 => h j (by omega))

/-- `poll_for_results` when attempt `k` is the first to observe a present,
done envelope: that envelope is returned after `k + 1` executor calls and
`k` sleeps. -/
theorem poll_for_results_first_done (api_key operation_path : String)
    (retries delay : Nat) (polls : Nat → RemoteOutcome) (k : Nat)
    (hk : k < retries)
    (hprev : ∀ j, j < k → respDone (makeResult "GET" (polls j)) = false)
    (hdone : respDone (makeResult "GET" (polls k)) = true) :
    poll_for_results api_key operation_path retries delay polls =
      .ok ⟨makeResult "GET" (polls k), k + 1, k⟩ := by
  unfold poll_for_results
  have h := pollLoop_first_done api_key (pollUrl operation_path) delay polls
    retries 0 k hk (fun j hj => by simpa using hprev j hj) (by simpa using hdone)
  simpa using h

/-- `pat` occurs as a prefix of `cs` (character-list view). -/
def charsPrefix : List Char → List Char → Bool
  | [], _ => true
  | _ :: _, [] => false
  | a :: as, b :: bs => a == b && charsPrefix as bs

/-- `pat` occurs somewhere inside `cs` (character-list view). -/
def charsContains (pat : List Char) : List Char → Bool
  | [] => charsPrefix pat []
  | c :: rest => charsPrefix pat (c :: rest) || charsContains pat rest

/-- The string `s` contains `pat` as a substring. -/
def strContains (s pat : String) : Bool := charsContains pat.data s.data

/-- Claim C1 (code bug evidence): calling the Request Executor with the
unsupported method "DELETE" does not raise to its caller and performs no
network call.  The body of the `try` block does raise
`ValueError("Unsupported HTTP method: DELETE")` before any network I/O
(second conjunct), but the executor's own blanket `except Exception` clause
catches it, so the call returns normally with the absent sentinel and a
network-call count of 0 (first conjunct). -/
theorem C1_unsupported_method_swallowed :
    make_roblox_request "key" "DELETE" "https://example.test" none .fault =
      (.ok none, 0) ∧
    requestAttempt "DELETE" .fault =
      (.error (.valueError "Unsupported HTTP method: DELETE"), 0) :=
  ⟨rfl, rfl⟩

/-- Claim C5: on the first attempt `k` whose executor response is a present
envelope with a truthy "done" field, `poll_for_results` returns that
envelope immediately: `k + 1` executor calls in total (none after attempt
`k`) and `k` inter-attempt delays (none for attempt `k` itself); in
particular `k = 0` — done on the first attempt — incurs zero delays. -/
theorem C5_poll_short_circuit (api_key operation_path : String)
    (retries delay : Nat) (polls : Nat → RemoteOutcome) (k : Nat)
    (hk : k < retries)
    (hprev : ∀ j, j < k →
      respDone (execValue (make_roblox_request api_key "GET"
        (pollUrl operation_path) none (polls j))) = false)
    (hdone : respDone (execValue (make_roblox_request api_key "GET"
      (pollUrl operation_path) none (polls k))) = true) :
    poll_for_results api_key operation_path retries delay polls =
      .ok ⟨execValue (make_roblox_request api_key "GET"
        (pollUrl operation_path) none (polls k)), k + 1, k⟩ := by
  rw [execValue_make] at hdone ⊢
  exact poll_for_results_first_done api_key operation_path retries delay polls k
    hk (fun j hj => by rw [← execValue_make api_key "GET" (pollUrl operation_path)
      none (polls j)]; exact hprev j hj) hdone

theorem C5_witness :
    poll_for_results "key" "operations/123" 10 5
      (fun _ => .resp 200 [("done", Json.bool true)]) =
      .ok ⟨some [("done", Json.bool true)], 1, 0⟩ := by
  have h := C5_poll_short_circuit "key" "operations/123" 10 5
    (fun _ => .resp 200 [("done", Json.bool true)]) 0 (by omega)
    (fun j hj => absurd hj (Nat.not_lt_zero j)) rfl
  exact h

/-- Claim C6: when no attempt yields a present envelope with a truthy
"done" field, `poll_for_results` with the source defaults
(`retries = 10`, `delay = 5`) makes exactly 10 executor calls, then
terminates and returns the absent sentinel (here it also performs exactly
10 sleeps, one after every attempt including the last). -/
theorem C6_poll_exhaustion (api_key operation_path : String)
    (polls : Nat → RemoteOutcome)
    (h : ∀ j, j < 10 →
      respDone (execValue (make_roblox_request api_key "GET"
        (pollUrl operation_path) none (polls j))) = false) :
    poll_for_results api_key operation_path 10 5 polls =
      .ok ⟨none, 10, 10⟩ := by
  refine poll_for_results_not_done api_key operation_path 10 5 polls ?_
  intro j hj
  rw [← execValue_make api_key "GET" (pollUrl operation_path) none (polls j)]
  exact h j hj

theorem C6_witness :
    poll_for_results "key" "operations/123" 10 5 (fun _ => .fault) =
      .ok ⟨none, 10, 10⟩ :=
  C6_poll_exhaustion "key" "operations/123" (fun _ => .fault)
    (fun _ _ => rfl)

/-- Claim C7: for a supported method (anything uppercasing to GET or PATCH)
the Request Executor never raises — its result is always a normal return —
and: a 2xx response yields the parsed JSON body, a non-2xx response yields
the absent sentinel, and a transport fault yields the absent sentinel. -/
theorem C7_executor_total (api_key method url : String) (data : Option Envelope)
    (remote : RemoteOutcome)
    (hm : pyUpper method = "GET" ∨ pyUpper method = "PATCH") :
    (∃ v, (make_roblox_request api_key method url data remote).1 = .ok v) ∧
    (∀ status body, remote = .resp status body → 200 ≤ status → status < 300 →
      (make_roblox_request api_key method url data remote).1 = .ok (some body)) ∧
    (∀ status body, remote = .resp status body → (status < 200 ∨ 300 ≤ status) →
      (make_roblox_request api_key method url data remote).1 = .ok none) ∧
    (remote = .fault →
      (make_roblox_request api_key method url data remote).1 = .ok none) := by
  refine ⟨⟨makeResult method remote, by rw [make_roblox_request_eq]⟩, ?_, ?_, ?_⟩
  · intro status body hre h1 h2
    subst hre
    rw [make_roblox_request_eq]
    simp [makeResult, hm, h1, h2]
  · intro status body hre hbad
    subst hre
    rw [make_roblox_request_eq]
    have : ¬(200 ≤ status ∧ status < 300) := by omega
    simp [makeResult, hm, this]
  · intro hre
    subst hre
    rw [make_roblox_request_eq]
    simp [makeResult, hm]

theorem C7_witness :
    (∃ v, (make_roblox_request "key" "GET" "https://example.test" none
      (.resp 503 [])).1 = .ok v) ∧
    (∀ status body, (RemoteOutcome.resp 503 ([] : Envelope)) = .resp status body →
      200 ≤ status → status < 300 →
      (make_roblox_request "key" "GET" "https://example.test" none
        (.resp 503 [])).1 = .ok (some body)) ∧
    (∀ status body, (RemoteOutcome.resp 503 ([] : Envelope)) = .resp status body →
      (status < 200 ∨ 300 ≤ status) →
      (make_roblox_request "key" "GET" "https://example.test" none
        (.resp 503 [])).1 = .ok none) ∧
    ((RemoteOutcome.resp 503 ([] : Envelope)) = .fault →
      (make_roblox_request "key" "GET" "https://example.test" none
        (.resp 503 [])).1 = .ok none) :=
  C7_executor_total "key" "GET" "https://example.test" none
    (.resp 503 []) (Or.inl rfl)

/-- Claim C9 (poller postcondition): every present envelope returned by
`poll_for_results` is non-empty and has a truthy "done" field; the poller
never returns a present envelope whose "done" field is false or missing. -/
theorem C9_poller_postcondition (api_key operation_path : String)
    (retries delay : Nat) (polls : Nat → RemoteOutcome)
    (r : PollResult) (fs : Envelope)
    (hok : poll_for_results api_key operation_path retries delay polls = .ok r)
    (hsome : r.result = some fs) :
    fs ≠ [] ∧ optTruthy (fs.lookup "done") = true := by
  have h := pollLoop_result_done api_key (pollUrl operation_path) delay polls
    retries 0 r fs hok hsome
  simp only [respDone, Bool.and_eq_true, Bool.not_eq_true'] at h
  exact ⟨by simpa [List.isEmpty_iff] using h.1, h.2⟩

theorem C9_witness :
    ([("done", Json.bool true)] : Envelope) ≠ [] ∧
    optTruthy (([("done", Json.bool true)] : Envelope).lookup "done") = true :=
  C9_poller_postcondition "key" "operations/123" 10 5
    (fun _ => .resp 200 [("done", Json.bool true)])
    ⟨some [("done", Json.bool true)], 1, 0⟩ [("done", Json.bool true)] rfl rfl

/-- Claim C10: the executor matches the method case-insensitively: any
method string that uppercases to "GET" or "PATCH" behaves exactly like the
uppercase method name (same return value, same network-call count). -/
theorem C10_method_case_insensitive (api_key method url : String)
    (data : Option Envelope) (remote : RemoteOutcome)
    (hm : pyUpper method = "GET" ∨ pyUpper method = "PATCH") :
    make_roblox_request api_key method url data remote =
      make_roblox_request api_key (pyUpper method) url data remote := by
  rw [make_roblox_request_eq, make_roblox_request_eq]
  rcases hm with hm | hm <;> rw [hm] <;>
    simp [makeResult, makeCalls, hm, pyUpper_GET, pyUpper_PATCH]

theorem C10_witness :
    make_roblox_request "key" "Patch" "https://example.test" none
      (.resp 200 [("path", Json.str "operations/123")]) =
      make_roblox_request "key" (pyUpper "Patch") "https://example.test" none
        (.resp 200 [("path", Json.str "operations/123")]) ∧
    pyUpper "Patch" = "PATCH" :=
  ⟨C10_method_case_insensitive "key" "Patch" "https://example.test" none
    (.resp 200 [("path", Json.str "operations/123")]) (Or.inr rfl), rfl⟩

/-- Reduction of `update_script` in the case of a present, non-empty API
key and a 2xx PATCH whose body carries a truthy string "path" field: what
remains is the poll call and the translation of its result (the PATCH call
itself contributes 1 to the network-call count). -/
theorem update_script_poll_phase (api_key : String) (hkey : api_key ≠ "")
    (universe_id place_id : Int) (instance_id script_content : String)
    (status : Nat) (h2a : 200 ≤ status) (h2b : status < 300)
    (patchBody : Envelope) (p : String)
    (hp : patchBody.lookup "path" = some (.str p)) (hpne : p ≠ "")
    (polls : Nat → RemoteOutcome) :
    update_script (some api_key) universe_id place_id instance_id script_content
      (.resp status patchBody) polls =
      match poll_for_results api_key p 10 5 polls with
      | .error e => .error e
      | .ok pollRes =>
        match pollRes.result with
        | none =>
          .ok ⟨"Error: Failed to poll for script update status.", 1 + pollRes.calls⟩
        | some poll_result =>
          if poll_result.isEmpty then
            .ok ⟨"Error: Failed to poll for script update status.", 1 + pollRes.calls⟩
          else if optTruthy (poll_result.lookup "done") then
            match poll_result.lookup "response" with
            | some v =>
              .ok ⟨"Script updated successfully! Final Response: " ++ pyStr v,
                1 + pollRes.calls⟩
            | none =>
              match poll_result.lookup "error" with
              | some v =>
                .ok ⟨"Script update failed. Error: " ++ pyStr v, 1 + pollRes.calls⟩
              | none =>
                .ok ⟨"Script update operation completed, but no response data found.",
                  1 + pollRes.calls⟩
          else
            .ok ⟨"Script update operation did not complete within the allowed time.",
              1 + pollRes.calls⟩ := by
  have hpatch : makeResult "PATCH" (.resp status patchBody) = some patchBody := by
    simp [makeResult, pyUpper_PATCH, h2a, h2b]
  have htr : optTruthy (some (Json.str p)) = true := by
    simp [optTruthy, truthy, hpne]
  have hps : pyStr (Json.str p) = p := rfl
  simp only [update_script, make_roblox_request_eq, hpatch, makeCalls_PATCH,
    if_neg hkey, hp, htr, Bool.not_true, Bool.false_eq_true, if_false,
    Option.getD_some, hps]

/-- Claim C2 counterexample: a concrete run in which the PATCH succeeds and
yields the operation path "operations/123" while all 10 polls answer
`done: false`.  The outcome is "Error: Failed to poll for script update
status." — not the string the claim names (the two strings differ). -/
theorem C2_counterexample :
    update_script (some "key") 1 2 "inst" "x"
      (.resp 200 [("path", Json.str "operations/123")])
      (fun _ => .resp 200 [("done", Json.bool false)]) =
      .ok ⟨"Error: Failed to poll for script update status.", 11⟩ ∧
    ("Error: Failed to poll for script update status." : String) ≠
      "Script update operation did not complete within the allowed time." :=
  ⟨rfl, by decide⟩

/-- Claim C2 (amended): when the PATCH succeeds (2xx) with a truthy string
"path" field and all 10 poll attempts return a 2xx envelope whose "done"
field is `false`, `update_script` returns
"Error: Failed to poll for script update status." — the poller hands back
the absent sentinel, and the workflow's "did not complete within the
allowed time" branch is unreachable for that sentinel. -/
theorem C2_amended_outcome (api_key : String) (hkey : api_key ≠ "")
    (universe_id place_id : Int) (instance_id script_content : String)
    (status : Nat) (h2a : 200 ≤ status) (h2b : status < 300)
    (patchBody : Envelope) (p : String)
    (hp : patchBody.lookup "path" = some (.str p)) (hpne : p ≠ "")
    (polls : Nat → RemoteOutcome)
    (hpolls : ∀ j, j < 10 → ∃ sj bj, polls j = .resp sj bj ∧
      200 ≤ sj ∧ sj < 300 ∧ bj.lookup "done" = some (Json.bool false)) :
    update_script (some api_key) universe_id place_id instance_id script_content
      (.resp status patchBody) polls =
      .ok ⟨"Error: Failed to poll for script update status.", 11⟩ := by
  have hpoll : poll_for_results api_key p 10 5 polls = .ok ⟨none, 10, 10⟩ := by
    refine poll_for_results_not_done api_key p 10 5 polls ?_
    intro j hj
    obtain ⟨sj, bj, hpj, hsa, hsb, hdj⟩ := hpolls j hj
    rw [hpj]
    simp [makeResult, pyUpper_GET, hsa, hsb, respDone, hdj, optTruthy, truthy]
  rw [update_script_poll_phase api_key hkey universe_id place_id instance_id
    script_content status h2a h2b patchBody p hp hpne polls, hpoll]
  rfl

theorem C2_amended_witness :
    update_script (some "key") 1 2 "inst" "x"
      (.resp 200 [("path", Json.str "operations/123")])
      (fun _ => .resp 204 [("done", Json.bool false)]) =
      .ok ⟨"Error: Failed to poll for script update status.", 11⟩ :=
  C2_amended_outcome "key" (by decide) 1 2 "inst" "x" 200 (by omega) (by omega)
    [("path", Json.str "operations/123")] "operations/123" rfl (by decide)
    (fun _ => .resp 204 [("done", Json.bool false)])
    (fun j hj => ⟨204, [("done", Json.bool false)], rfl, by omega, by omega, rfl⟩)

/-- Claim C3 counterexample: a concrete run in which polling terminates with
an envelope having `done: true` and neither a "response" nor an "error"
field.  The outcome is "Script update operation completed, but no response
data found.", which does not contain "did not complete within the allowed
time". -/
theorem C3_counterexample :
    update_script (some "key") 1 2 "inst" "x"
      (.resp 200 [("path", Json.str "operations/123")])
      (fun _ => .resp 200 [("done", Json.bool true)]) =
      .ok ⟨"Script update operation completed, but no response data found.", 2⟩ ∧
    strContains "Script update operation completed, but no response data found."
      "did not complete within the allowed time" = false :=
  ⟨rfl, rfl⟩

/-- Claim C3 (amended): when the PATCH succeeds (2xx) with a truthy string
"path" field and polling returns a present envelope (necessarily with a
truthy "done" field) that has neither a "response" nor an "error" field,
`update_script` returns
"Script update operation completed, but no response data found." -/
theorem C3_amended_outcome (api_key : String) (hkey : api_key ≠ "")
    (universe_id place_id : Int) (instance_id script_content : String)
    (status : Nat) (h2a : 200 ≤ status) (h2b : status < 300)
    (patchBody : Envelope) (p : String)
    (hp : patchBody.lookup "path" = some (.str p)) (hpne : p ≠ "")
    (polls : Nat → RemoteOutcome) (r : PollResult) (fs : Envelope)
    (hpoll : poll_for_results api_key p 10 5 polls = .ok r)
    (hres : r.result = some fs)
    (hnoresp : fs.lookup "response" = none) (hnoerr : fs.lookup "error" = none) :
    update_script (some api_key) universe_id place_id instance_id script_content
      (.resp status patchBody) polls =
      .ok ⟨"Script update operation completed, but no response data found.",
        1 + r.calls⟩ := by
  have hdone := pollLoop_result_done api_key (pollUrl p) 5 polls 10 0 r fs
    hpoll hres
  simp only [respDone, Bool.and_eq_true, Bool.not_eq_true'] at hdone
  rw [update_script_poll_phase api_key hkey universe_id place_id instance_id
    script_content status h2a h2b patchBody p hp hpne polls, hpoll]
  simp only [hres, hdone.1, hdone.2, Bool.false_eq_true, if_false, if_true,
    hnoresp, hnoerr]

theorem C3_amended_witness :
    update_script (some "key") 1 2 "inst" "x"
      (.resp 200 [("path", Json.str "operations/123")])
      (fun _ => .resp 200 [("done", Json.bool true)]) =
      .ok ⟨"Script update operation completed, but no response data found.", 2⟩ :=
  C3_amended_outcome "key" (by decide) 1 2 "inst" "x" 200 (by omega) (by omega)
    [("path", Json.str "operations/123")] "operations/123" rfl (by decide)
    (fun _ => .resp 200 [("done", Json.bool true)])
    ⟨some [("done", Json.bool true)], 1, 0⟩ [("done", Json.bool true)]
    rfl rfl rfl rfl

/-- Claim C4 counterexample: a concrete run in which the PATCH succeeds with
an envelope that has no "path" field.  The outcome is
"Error: Operation path not found in PATCH response." — which is not exactly
the string the claim names (it carries an "Error: " prefix). -/
theorem C4_counterexample :
    update_script (some "key") 1 2 "inst" "x" (.resp 200 []) (fun _ => .fault) =
      .ok ⟨"Error: Operation path not found in PATCH response.", 1⟩ ∧
    ("Error: Operation path not found in PATCH response." : String) ≠
      "Operation path not found in PATCH response." :=
  ⟨rfl, by decide⟩

/-- Claim C4 (amended): when the key is present and the PATCH succeeds (2xx)
but the returned envelope has no "path" field, `update_script` returns
exactly "Error: Operation path not found in PATCH response." after the one
PATCH network call. -/
theorem C4_amended_outcome (api_key : String) (hkey : api_key ≠ "")
    (universe_id place_id : Int) (instance_id script_content : String)
    (status : Nat) (h2a : 200 ≤ status) (h2b : status < 300)
    (patchBody : Envelope) (hp : patchBody.lookup "path" = none)
    (polls : Nat → RemoteOutcome) :
    update_script (some api_key) universe_id place_id instance_id script_content
      (.resp status patchBody) polls =
      .ok ⟨"Error: Operation path not found in PATCH response.", 1⟩ := by
  have hpatch : makeResult "PATCH" (.resp status patchBody) = some patchBody := by
    simp [makeResult, pyUpper_PATCH, h2a, h2b]
  simp only [update_script, make_roblox_request_eq, hpatch, makeCalls_PATCH,
    if_neg hkey, hp, optTruthy, Bool.not_false, if_true]

theorem C4_amended_witness :
    update_script (some "key") 1 2 "inst" "x" (.resp 200 [("done", Json.bool true)])
      (fun _ => .fault) =
      .ok ⟨"Error: Operation path not found in PATCH response.", 1⟩ :=
  C4_amended_outcome "key" (by decide) 1 2 "inst" "x" 200 (by omega) (by omega)
    [("done", Json.bool true)] rfl (fun _ => .fault)

/-- Claim C8: with the credential absent from the environment,
`update_script` returns exactly "Error: Roblox Open Cloud API Key is
required." and performs zero network calls, for every input tuple and
every remote behaviour. -/
theorem C8_missing_key (universe_id place_id : Int)
    (instance_id script_content : String) (patchRemote : RemoteOutcome)
    (polls : Nat → RemoteOutcome) :
    update_script none universe_id place_id instance_id script_content
      patchRemote polls =
      .ok ⟨"Error: Roblox Open Cloud API Key is required.", 0⟩ := rfl
